import Mathlib

/-!
Shallow embedding of the EtherCAT packet-exporter decoder (src/main.rs).

Byte buffers are `List Nat` (each entry a byte value). Rust's panicking
slice-index operations are modelled as fallible reads returning
`Except DecodeError`: an out-of-bounds index in the Rust source is an
index-out-of-bounds panic, embedded as `DecodeError.panicked`. The
constructor `DecodeError.truncatedInput` models the spec's `TruncatedInput`
error value; the source never produces it (the source has no error type at
all), it is present only so the spec's claimed failure mode can be stated
and compared against the code's actual one.

The record lines printed by `println!` inside the datagram loop are
collected, in emission order, alongside each decode result. On a modelled
panic the whole result is the error, matching the process abort.
-/

deriving instance DecidableEq for Except

namespace Ecat

/-- Failure modes. `panicked` embeds a Rust index-out-of-bounds panic.
`truncatedInput` is the spec's error value (never produced by the source). -/
inductive DecodeError where
  | truncatedInput
  | panicked
deriving DecidableEq, Repr

/-- Rust `buf[i]` on a byte slice: the byte, or a panic when out of bounds. -/
def idx (buf : List Nat) (i : Nat) : Except DecodeError Nat :=
  match buf[i]? with
  | some v => Except.ok v
  | none => Except.error DecodeError.panicked

/-- Rust `&buf[i..]`: the suffix from `i`, or a panic when `i > buf.len()`. -/
def sliceFrom (buf : List Nat) (i : Nat) : Except DecodeError (List Nat) :=
  if i ≤ buf.length then Except.ok (buf.drop i) else Except.error DecodeError.panicked

/-- Rust `&buf[a..b]` (with `a ≤ b` fixed by the caller): bytes `a` to `b-1`,
or a panic when `b > buf.len()`. -/
def sliceRange (buf : List Nat) (a b : Nat) : Except DecodeError (List Nat) :=
  if b ≤ buf.length then Except.ok ((buf.drop a).take (b - a)) else Except.error DecodeError.panicked

/-- Rust `u16::from_le_bytes([lo, hi])`. -/
def u16le (lo hi : Nat) : Nat := lo + 256 * hi

/-- Rust `u16::from_be_bytes([hi, lo])`. -/
def u16be (hi lo : Nat) : Nat := 256 * hi + lo

/-- The `EtherCATCommand` enum from the source (discriminants 0..15). -/
inductive EtherCATCommand where
  | NOP
  | APRD
  | APWR
  | APRW
  | FPRD
  | FPWR
  | FPRW
  | BRD
  | BWR
  | BRW
  | LRD
  | LWR
  | LRW
  | ARMW
  | FRMW
  | UNKNOWN
deriving DecidableEq, Repr

/-- The `match data_buf[0]` command decode in `parse_one_datagram`. -/
def commandOfByte (b : Nat) : EtherCATCommand :=
  match b with
  | 0 => EtherCATCommand.NOP
  | 1 => EtherCATCommand.APRD
  | 2 => EtherCATCommand.APWR
  | 3 => EtherCATCommand.APRW
  | 4 => EtherCATCommand.FPRD
  | 5 => EtherCATCommand.FPWR
  | 6 => EtherCATCommand.FPRW
  | 7 => EtherCATCommand.BRD
  | 8 => EtherCATCommand.BWR
  | 9 => EtherCATCommand.BRW
  | 10 => EtherCATCommand.LRD
  | 11 => EtherCATCommand.LWR
  | 12 => EtherCATCommand.LRW
  | 13 => EtherCATCommand.ARMW
  | 14 => EtherCATCommand.FRMW
  | _ => EtherCATCommand.UNKNOWN

/-- The numeric discriminant Rust assigns each named variant (`NOP = 0`,
auto-incremented through `FRMW = 14`, `UNKNOWN = 15`). -/
def commandCode (c : EtherCATCommand) : Nat :=
  match c with
  | EtherCATCommand.NOP => 0
  | EtherCATCommand.APRD => 1
  | EtherCATCommand.APWR => 2
  | EtherCATCommand.APRW => 3
  | EtherCATCommand.FPRD => 4
  | EtherCATCommand.FPWR => 5
  | EtherCATCommand.FPRW => 6
  | EtherCATCommand.BRD => 7
  | EtherCATCommand.BWR => 8
  | EtherCATCommand.BRW => 9
  | EtherCATCommand.LRD => 10
  | EtherCATCommand.LWR => 11
  | EtherCATCommand.LRW => 12
  | EtherCATCommand.ARMW => 13
  | EtherCATCommand.FRMW => 14
  | EtherCATCommand.UNKNOWN => 15

structure EtherCATDatagramHeader where
  cmd : EtherCATCommand
  index : Nat
  slave_addr : Nat
  offset_addr : Nat
  length : Nat
  round_trip : Nat
  last_indicator : Nat
  irq : Nat
deriving DecidableEq, Repr

structure EtherCATDatagram where
  header : EtherCATDatagramHeader
  data : List Nat
  wkc : Nat
deriving DecidableEq, Repr

/-- Rust `EtherCATDatagram::parse_one_datagram`, read for read in source
order: bytes 0..9 of the header, then `data = &data_buf[10..]` (the whole
tail, exactly as the source slices it), then the working counter at
`data_buf[10 + length]`, `data_buf[11 + length]`. The `as u8` casts on the
shifted flag bits are the `% 256`. -/
def parse_one_datagram (data_buf : List Nat) : Except DecodeError EtherCATDatagram := do
  let b0 ← idx data_buf 0
  let cmd := commandOfByte b0
  let index ← idx data_buf 1
  let b2 ← idx data_buf 2
  let b3 ← idx data_buf 3
  let slave_addr := u16le b2 b3
  let b4 ← idx data_buf 4
  let b5 ← idx data_buf 5
  let offset_addr := u16le b4 b5
  let b6 ← idx data_buf 6
  let b7 ← idx data_buf 7
  let len_rtr_last := u16le b6 b7
  let length := len_rtr_last &&& 0x07FF
  let round_trip := ((len_rtr_last >>> 14) % 256) &&& 0x1
  let last_indicator := ((len_rtr_last >>> 15) % 256) &&& 0x1
  let b8 ← idx data_buf 8
  let b9 ← idx data_buf 9
  let irq := u16le b8 b9
  let data ← sliceFrom data_buf 10
  let w0 ← idx data_buf (10 + length)
  let w1 ← idx data_buf (11 + length)
  let wkc := u16le w0 w1
  Except.ok
    { header :=
        { cmd := cmd
          index := index
          slave_addr := slave_addr
          offset_addr := offset_addr
          length := length
          round_trip := round_trip
          last_indicator := last_indicator
          irq := irq }
      data := data
      wkc := wkc }

/-- Rust `EtherCATDatagram::is_last_datagram`: the stored wire bit 15 is 0. -/
def is_last_datagram (d : EtherCATDatagram) : Bool :=
  d.header.last_indicator == 0

/-- Rust `EtherCATDatagram::size`: 10-byte header + `length` + 2-byte wkc. -/
def EtherCATDatagram.size (d : EtherCATDatagram) : Nat :=
  10 + d.header.length + 2

/-- The declared 11-bit length field of a prospective datagram buffer:
bytes 6 and 7 little-endian, masked to 11 bits (0 for a missing byte). -/
def declLen (buf : List Nat) : Nat :=
  u16le (buf.getD 6 0) (buf.getD 7 0) &&& 0x07FF

/-- Rust `{:x}`: lowercase hexadecimal, no zero-padding. -/
def hexStr (n : Nat) : String := String.mk (Nat.toDigits 16 n)

/-- The `format!` of the six MAC bytes: six `{:x}` fields space-separated. -/
def macStr (m : List Nat) : String := String.intercalate " " (m.map hexStr)

/-- Rust `impl Display for EtherCATCommand`. -/
def cmdStr (c : EtherCATCommand) : String :=
  match c with
  | EtherCATCommand.NOP => "NOP"
  | EtherCATCommand.APRD => "APRD"
  | EtherCATCommand.APWR => "APWR"
  | EtherCATCommand.APRW => "APRW"
  | EtherCATCommand.FPRD => "FPRD"
  | EtherCATCommand.FPWR => "FPWR"
  | EtherCATCommand.FPRW => "FPRW"
  | EtherCATCommand.BRD => "BRD"
  | EtherCATCommand.BWR => "BWR"
  | EtherCATCommand.BRW => "BRW"
  | EtherCATCommand.LRD => "LRD"
  | EtherCATCommand.LWR => "LWR"
  | EtherCATCommand.LRW => "LRW"
  | EtherCATCommand.ARMW => "ARMW"
  | EtherCATCommand.FRMW => "FRMW"
  | EtherCATCommand.UNKNOWN => "UNKNOWN"

/-- Rust `impl Display for EtherCATDatagramHeader`: eight comma-separated
fields over cmd, index, slave_addr, offset_addr, length, round_trip,
last_indicator, irq; `offset_addr` (ado) and `irq` print with `{:x}` (hex),
the rest with `{}` (decimal). -/
def headerStr (h : EtherCATDatagramHeader) : String :=
  cmdStr h.cmd ++ "," ++ Nat.repr h.index ++ "," ++ Nat.repr h.slave_addr ++ "," ++
    hexStr h.offset_addr ++ "," ++ Nat.repr h.length ++ "," ++ Nat.repr h.round_trip ++ "," ++
    Nat.repr h.last_indicator ++ "," ++ hexStr h.irq

/-- Rust `{:x?}` on a byte slice: `[a, b, c]` with lowercase hex elements,
", " separated, no zero-padding. -/
def dataDebugStr (l : List Nat) : String :=
  "[" ++ String.intercalate ", " (l.map hexStr) ++ "]"

/-- Rust `impl Display for EtherCATDatagram`: header, wkc (decimal), then
the data slice via `{:x?}`. -/
def datagramStr (d : EtherCATDatagram) : String :=
  headerStr d.header ++ "," ++ Nat.repr d.wkc ++ "," ++ dataDebugStr d.data

/-- The record line printed per datagram in `parse_datagrams`:
dst MAC string, src MAC string, then the datagram display, comma-joined. -/
def mkRecord (dst src : List Nat) (d : EtherCATDatagram) : String :=
  macStr dst ++ "," ++ macStr src ++ "," ++ datagramStr d

/-- The datagram `parse_one_datagram` produces on a sufficiently long buffer,
written field by field with total reads (see `parse_eq`). -/
def mkParsed (buf : List Nat) : EtherCATDatagram :=
  { header :=
      { cmd := commandOfByte (buf.getD 0 0)
        index := buf.getD 1 0
        slave_addr := u16le (buf.getD 2 0) (buf.getD 3 0)
        offset_addr := u16le (buf.getD 4 0) (buf.getD 5 0)
        length := declLen buf
        round_trip := ((u16le (buf.getD 6 0) (buf.getD 7 0) >>> 14) % 256) &&& 0x1
        last_indicator := ((u16le (buf.getD 6 0) (buf.getD 7 0) >>> 15) % 256) &&& 0x1
        irq := u16le (buf.getD 8 0) (buf.getD 9 0) }
    data := buf.drop 10
    wkc := u16le (buf.getD (10 + declLen buf) 0) (buf.getD (11 + declLen buf) 0) }

/-- Fuel-indexed body of the `loop` in `EtherCATDatagram::parse_datagrams`,
recursing on the unconsumed suffix of the buffer. The Rust loop keeps an
absolute cursor `next_datagram_offset` into `data_buf` and slices
`&data_buf[cursor..]` each iteration; a successful parse guarantees
`cursor + size ≤ len`, so that slice never panics and the loop is
equivalently expressed on suffixes, the cursor advancing by
`datagram.size()` being the `List.drop d.size`. Each iteration prints one
record (collected here in order); the loop breaks after the record when
`is_last_datagram` holds. The fuel only bounds recursion depth and
`tail.length + 1` is always enough (`goF_fuel_irrel`). -/
def goF (dst src : List Nat) : Nat → List Nat → Except DecodeError (List String)
  | 0, _ => Except.error DecodeError.panicked
  | fuel + 1, tail =>
    match parse_one_datagram tail with
    | Except.error e => Except.error e
    | Except.ok d =>
      if is_last_datagram d then
        Except.ok [mkRecord dst src d]
      else
        match goF dst src fuel (tail.drop d.size) with
        | Except.error e => Except.error e
        | Except.ok rest => Except.ok (mkRecord dst src d :: rest)

/-- The datagram loop started at cursor 0 with always-sufficient fuel. -/
def parse_datagrams_go (dst src : List Nat) (tail : List Nat) :
    Except DecodeError (List String) :=
  goF dst src (tail.length + 1) tail

/-- Rust `EtherCATDatagram::parse_datagrams`: runs the loop from cursor 0
and returns the `datagrams` vector — which is always empty, because the
`datagrams.push(datagram)` line is commented out in the source — paired
with the records printed along the way. -/
def parse_datagrams (dst src data_buf : List Nat) :
    Except DecodeError (List String × List EtherCATDatagram) :=
  match parse_datagrams_go dst src data_buf with
  | Except.error e => Except.error e
  | Except.ok recs => Except.ok (recs, [])

structure EtherCATFrameHeader where
  length : Nat
  reserved : Nat
  ecat_frame_type : Nat
deriving DecidableEq, Repr

structure EtherCATFrame where
  header : EtherCATFrameHeader
  datagrams : List EtherCATDatagram
deriving DecidableEq, Repr

/-- The bit-unpacking of the 16-bit EtherCAT frame-header word in
`EtherCATFrame::parse`: `length = bits 0-10`, `reserved = bit 11`,
`frame_type = bits 12-15`; the `as u8` casts are the `% 256`. -/
def frameHeaderOfWord (len_rsv_type : Nat) : EtherCATFrameHeader :=
  { length := len_rsv_type &&& 0x07FF
    reserved := ((len_rsv_type >>> 11) % 256) &&& 0x1
    ecat_frame_type := ((len_rsv_type >>> 12) % 256) &&& 0xF }

/-- Rust `EtherCATFrame::parse`: 16-bit little-endian header word from
bytes 0-1 unpacked by `frameHeaderOfWord`, then the datagram loop over
`&data[2..]`. The record lines printed by the loop are carried alongside. -/
def EtherCATFrame.parse (dst src data : List Nat) :
    Except DecodeError (EtherCATFrame × List String) := do
  let b0 ← idx data 0
  let b1 ← idx data 1
  let len_rsv_type := u16le b0 b1
  let header := frameHeaderOfWord len_rsv_type
  let tail ← sliceFrom data 2
  let res ← parse_datagrams dst src tail
  Except.ok ({ header := header, datagrams := res.2 }, res.1)

structure EtherNetFrame where
  frame_type : Nat
  ecat_frame : EtherCATFrame
deriving DecidableEq, Repr

/-- Rust `EtherNetFrame::parse`: copies `dst_mac` from bytes 0-5 and
`src_mac` from bytes 6-11, reads the big-endian ethertype from bytes 12-13,
and unconditionally hands `&data[14..]` to `EtherCATFrame::parse` — the
source never compares `frame_type` with 0x88A4. -/
def EtherNetFrame.parse (data : List Nat) :
    Except DecodeError (EtherNetFrame × List String) := do
  let dst ← sliceRange data 0 6
  let src ← sliceRange data 6 12
  let b12 ← idx data 12
  let b13 ← idx data 13
  let ft := u16be b12 b13
  let tail ← sliceFrom data 14
  let res ← EtherCATFrame.parse dst src tail
  Except.ok ({ frame_type := ft, ecat_frame := res.1 }, res.2)

/-- The inverse bit-packing of the frame-header triple, following the
spec's round-trip property. The source has no encoder; this definition
exists only to state that property: bits 0-10 the length, bit 11 the
reserved flag, bits 12-15 the frame type. -/
def frameHeaderEncode (h : EtherCATFrameHeader) : Nat :=
  h.length + (h.reserved <<< 11) + (h.ecat_frame_type <<< 12)

/-- Two-digit zero-padded lowercase hex, as claim C9's words demand for
data bytes. For comparison only; the source's `{:x?}` does not pad. -/
def hexStr2 (n : Nat) : String :=
  if n < 16 then "0" ++ hexStr n else hexStr n

/-- The record format as claim C9's words state it (`adp` and `ado` in
decimal, data bytes zero-padded two-digit hex), for comparison with the
source's `mkRecord`. Where the claim is silent (data brackets/separator)
this follows the source, so any mismatch is forced by the claim's words. -/
def specRecord (dst src : List Nat) (d : EtherCATDatagram) : String :=
  macStr dst ++ "," ++ macStr src ++ "," ++ cmdStr d.header.cmd ++ "," ++
    Nat.repr d.header.index ++ "," ++ Nat.repr d.header.slave_addr ++ "," ++
    Nat.repr d.header.offset_addr ++ "," ++ Nat.repr d.header.length ++ "," ++
    Nat.repr d.header.round_trip ++ "," ++ Nat.repr d.header.last_indicator ++ "," ++
    hexStr d.header.irq ++ "," ++ Nat.repr d.wkc ++ "," ++
    "[" ++ String.intercalate ", " (d.data.map hexStr2) ++ "]"

/-- Concrete destination MAC for witnesses. -/
def macA : List Nat := [0, 1, 2, 3, 4, 5]

/-- Concrete source MAC for witnesses. -/
def macB : List Nat := [10, 11, 12, 13, 14, 15]

/-- A well-formed last datagram (declared length 0, bit 15 clear): the
spec's concrete scenario, 12 bytes, working counter 5. -/
def dgLast : List Nat := [1, 0, 0xAA, 0xBB, 1, 0, 0, 0, 0, 0, 5, 0]

/-- A well-formed non-last datagram (declared length 0, bit 15 set). -/
def dgMoreA : List Nat := [1, 1, 0, 0, 0, 0, 0, 0x80, 0, 0, 1, 0]

/-- A second well-formed non-last datagram. -/
def dgMoreB : List Nat := [2, 2, 0, 0, 0, 0, 0, 0x80, 0, 0, 2, 0]

/-- Three back-to-back datagrams with more-follows bits 1, 1, 0. -/
def c6buf : List Nat := dgMoreA ++ dgMoreB ++ dgLast

/-- The spec's truncation test: a datagram header declaring length 100 with
only 50 trailing bytes (60 bytes total, fewer than 10 + 100 + 2). -/
def c1buf : List Nat := [0, 0, 0, 0, 0, 0, 100, 0, 0, 0] ++ List.replicate 50 0

/-- An EtherCAT frame payload: 2-byte frame header then one last datagram. -/
def ecatPayload : List Nat := [14, 16] ++ dgLast

/-- An Ethernet frame whose ethertype is 0x0800 (not EtherCAT) carrying a
decodable EtherCAT payload. -/
def ethBad : List Nat := macA ++ macB ++ [8, 0] ++ ecatPayload

/-- An Ethernet frame with the EtherCAT ethertype 0x88A4. -/
def ethGood : List Nat := macA ++ macB ++ [0x88, 0xA4] ++ ecatPayload

/-- The EtherCAT frame value decoded from `ecatPayload`. -/
def frG : EtherNetFrame :=
  { frame_type := 0x88A4
    ecat_frame := { header := frameHeaderOfWord (u16le 14 16), datagrams := [] } }

/-- The records emitted while decoding `ecatPayload` with `macA`/`macB`. -/
def recsG : List String := [mkRecord macA macB (mkParsed dgLast)]

/-- A concrete datagram whose ado is 255 and whose data byte is 5, making
the decimal-ado and zero-padded-data renderings differ from the source's. -/
def d9 : EtherCATDatagram :=
  { header :=
      { cmd := EtherCATCommand.APRD, index := 0, slave_addr := 2, offset_addr := 255,
        length := 1, round_trip := 0, last_indicator := 0, irq := 0 }
    data := [5]
    wkc := 1 }

theorem ok_bind {α β ε : Type} (a : α) (f : α → Except ε β) :
    (Except.ok a >>= f) = f a := rfl

theorem err_bind {α β ε : Type} (e : ε) (f : α → Except ε β) :
    ((Except.error e : Except ε α) >>= f) = Except.error e := rfl

theorem idx_eq_ok (buf : List Nat) (i : Nat) (h : i < buf.length) :
    idx buf i = Except.ok (buf.getD i 0) := by
  simp [idx, List.getElem?_eq_getElem h, List.getD_eq_getElem?_getD]

theorem idx_eq_err (buf : List Nat) (i : Nat) (h : buf.length ≤ i) :
    idx buf i = Except.error DecodeError.panicked := by
  simp [idx, List.getElem?_eq_none h]

theorem sliceFrom_ok (buf : List Nat) (i : Nat) (h : i ≤ buf.length) :
    sliceFrom buf i = Except.ok (buf.drop i) := by
  unfold sliceFrom
  rw [if_pos h]

theorem sliceFrom_err (buf : List Nat) (i : Nat) (h : buf.length < i) :
    sliceFrom buf i = Except.error DecodeError.panicked := by
  unfold sliceFrom
  rw [if_neg (by omega)]

theorem sliceRange_ok (buf : List Nat) (a b : Nat) (h : b ≤ buf.length) :
    sliceRange buf a b = Except.ok ((buf.drop a).take (b - a)) := by
  unfold sliceRange
  rw [if_pos h]

theorem sliceRange_err (buf : List Nat) (a b : Nat) (h : buf.length < b) :
    sliceRange buf a b = Except.error DecodeError.panicked := by
  unfold sliceRange
  rw [if_neg (by omega)]

/-- Characterization of the datagram decoder: it succeeds exactly when the
buffer holds at least `12 + L` bytes for the declared length `L`, and fails
by (modelled) panic otherwise. -/
theorem parse_eq (buf : List Nat) :
    parse_one_datagram buf =
      if 12 + declLen buf ≤ buf.length then Except.ok (mkParsed buf)
      else Except.error DecodeError.panicked := by
  have hL : declLen buf = u16le (buf.getD 6 0) (buf.getD 7 0) &&& 0x07FF := rfl
  split
  case isTrue h =>
    have hs : sliceFrom buf 10 = Except.ok (buf.drop 10) := sliceFrom_ok buf 10 (by omega)
    simp only [parse_one_datagram,
      idx_eq_ok buf 0 (by omega), idx_eq_ok buf 1 (by omega),
      idx_eq_ok buf 2 (by omega), idx_eq_ok buf 3 (by omega),
      idx_eq_ok buf 4 (by omega), idx_eq_ok buf 5 (by omega),
      idx_eq_ok buf 6 (by omega), idx_eq_ok buf 7 (by omega),
      idx_eq_ok buf 8 (by omega), idx_eq_ok buf 9 (by omega),
      hs, ok_bind]
    rw [idx_eq_ok buf (10 + (u16le (buf.getD 6 0) (buf.getD 7 0) &&& 0x07FF)) (by omega),
      ok_bind,
      idx_eq_ok buf (11 + (u16le (buf.getD 6 0) (buf.getD 7 0) &&& 0x07FF)) (by omega),
      ok_bind]
    rfl
  case isFalse h =>
    by_cases h9 : 10 ≤ buf.length
    · have hs : sliceFrom buf 10 = Except.ok (buf.drop 10) := sliceFrom_ok buf 10 (by omega)
      simp only [parse_one_datagram,
        idx_eq_ok buf 0 (by omega), idx_eq_ok buf 1 (by omega),
        idx_eq_ok buf 2 (by omega), idx_eq_ok buf 3 (by omega),
        idx_eq_ok buf 4 (by omega), idx_eq_ok buf 5 (by omega),
        idx_eq_ok buf 6 (by omega), idx_eq_ok buf 7 (by omega),
        idx_eq_ok buf 8 (by omega), idx_eq_ok buf 9 (by omega),
        hs, ok_bind]
      by_cases h10 : buf.length ≤ 10 + (u16le (buf.getD 6 0) (buf.getD 7 0) &&& 0x07FF)
      · rw [idx_eq_err buf _ h10, err_bind]
      · rw [idx_eq_ok buf (10 + (u16le (buf.getD 6 0) (buf.getD 7 0) &&& 0x07FF)) (by omega),
          ok_bind,
          idx_eq_err buf (11 + (u16le (buf.getD 6 0) (buf.getD 7 0) &&& 0x07FF)) (by omega),
          err_bind]
    · rcases (by omega :
          buf.length = 0 ∨ buf.length = 1 ∨ buf.length = 2 ∨ buf.length = 3 ∨
          buf.length = 4 ∨ buf.length = 5 ∨ buf.length = 6 ∨ buf.length = 7 ∨
          buf.length = 8 ∨ buf.length = 9) with
        hk | hk | hk | hk | hk | hk | hk | hk | hk | hk
      · simp only [parse_one_datagram, idx_eq_err buf 0 (by omega), err_bind]
      · simp only [parse_one_datagram, idx_eq_ok buf 0 (by omega),
          idx_eq_err buf 1 (by omega), ok_bind, err_bind]
      · simp only [parse_one_datagram, idx_eq_ok buf 0 (by omega),
          idx_eq_ok buf 1 (by omega), idx_eq_err buf 2 (by omega), ok_bind, err_bind]
      · simp only [parse_one_datagram, idx_eq_ok buf 0 (by omega),
          idx_eq_ok buf 1 (by omega), idx_eq_ok buf 2 (by omega),
          idx_eq_err buf 3 (by omega), ok_bind, err_bind]
      · simp only [parse_one_datagram, idx_eq_ok buf 0 (by omega),
          idx_eq_ok buf 1 (by omega), idx_eq_ok buf 2 (by omega),
          idx_eq_ok buf 3 (by omega), idx_eq_err buf 4 (by omega), ok_bind, err_bind]
      · simp only [parse_one_datagram, idx_eq_ok buf 0 (by omega),
          idx_eq_ok buf 1 (by omega), idx_eq_ok buf 2 (by omega),
          idx_eq_ok buf 3 (by omega), idx_eq_ok buf 4 (by omega),
          idx_eq_err buf 5 (by omega), ok_bind, err_bind]
      · simp only [parse_one_datagram, idx_eq_ok buf 0 (by omega),
          idx_eq_ok buf 1 (by omega), idx_eq_ok buf 2 (by omega),
          idx_eq_ok buf 3 (by omega), idx_eq_ok buf 4 (by omega),
          idx_eq_ok buf 5 (by omega), idx_eq_err buf 6 (by omega), ok_bind, err_bind]
      · simp only [parse_one_datagram, idx_eq_ok buf 0 (by omega),
          idx_eq_ok buf 1 (by omega), idx_eq_ok buf 2 (by omega),
          idx_eq_ok buf 3 (by omega), idx_eq_ok buf 4 (by omega),
          idx_eq_ok buf 5 (by omega), idx_eq_ok buf 6 (by omega),
          idx_eq_err buf 7 (by omega), ok_bind, err_bind]
      · simp only [parse_one_datagram, idx_eq_ok buf 0 (by omega),
          idx_eq_ok buf 1 (by omega), idx_eq_ok buf 2 (by omega),
          idx_eq_ok buf 3 (by omega), idx_eq_ok buf 4 (by omega),
          idx_eq_ok buf 5 (by omega), idx_eq_ok buf 6 (by omega),
          idx_eq_ok buf 7 (by omega), idx_eq_err buf 8 (by omega), ok_bind, err_bind]
      · simp only [parse_one_datagram, idx_eq_ok buf 0 (by omega),
          idx_eq_ok buf 1 (by omega), idx_eq_ok buf 2 (by omega),
          idx_eq_ok buf 3 (by omega), idx_eq_ok buf 4 (by omega),
          idx_eq_ok buf 5 (by omega), idx_eq_ok buf 6 (by omega),
          idx_eq_ok buf 7 (by omega), idx_eq_ok buf 8 (by omega),
          idx_eq_err buf 9 (by omega), ok_bind, err_bind]

/-- A successful datagram parse needs (and implies) `12 + L` bytes, and its
result is the explicit field-by-field datagram. -/
theorem parse_ok_size {buf : List Nat} {d : EtherCATDatagram}
    (h : parse_one_datagram buf = Except.ok d) :
    12 + d.header.length ≤ buf.length ∧ d = mkParsed buf := by
  rw [parse_eq] at h
  split at h
  case isTrue hle =>
    cases h
    exact ⟨hle, rfl⟩
  case isFalse hle => cases h

example : parse_one_datagram dgLast =
    Except.ok
      { header :=
          { cmd := EtherCATCommand.APRD, index := 0, slave_addr := 0xBBAA,
            offset_addr := 1, length := 0, round_trip := 0, last_indicator := 0, irq := 0 }
        data := [5, 0]
        wkc := 5 } := by decide

/-- The fuel parameter of `goF` only bounds the recursion depth; any fuel
beyond the buffer length gives the same result, because every loop
iteration consumes at least 12 bytes of the suffix. -/
theorem goF_fuel_irrel (dst src : List Nat) :
    ∀ fuel fuel' tail, tail.length < fuel → tail.length < fuel' →
      goF dst src fuel tail = goF dst src fuel' tail := by
  intro fuel
  induction fuel with
  | zero => intro fuel' tail h _; omega
  | succ f ih =>
    intro fuel' tail h h'
    match fuel', h' with
    | f' + 1, h' =>
      show goF dst src (f + 1) tail = goF dst src (f' + 1) tail
      simp only [goF]
      cases hp : parse_one_datagram tail with
      | error e => rfl
      | ok d =>
        by_cases hl : is_last_datagram d
        · simp [hl]
        · have h12 := (parse_ok_size hp).1
          have hrec : (tail.drop d.size).length < f ∧ (tail.drop d.size).length < f' := by
            simp only [List.length_drop, EtherCATDatagram.size]
            omega
          simp [hl, ih f' (tail.drop d.size) hrec.1 hrec.2]

/-- One-step unfolding of the loop when the decoded datagram is the last. -/
theorem go_step_last {tail : List Nat} {d : EtherCATDatagram}
    (hp : parse_one_datagram tail = Except.ok d)
    (hl : is_last_datagram d = true) (dst src : List Nat) :
    parse_datagrams_go dst src tail = Except.ok [mkRecord dst src d] := by
  unfold parse_datagrams_go
  simp [goF, hp, hl]

/-- One-step unfolding of the loop when more datagrams follow: a record for
`d` is emitted and the cursor advances by exactly `d.size = 10 + L + 2`. -/
theorem go_step_more {tail : List Nat} {d : EtherCATDatagram}
    (hp : parse_one_datagram tail = Except.ok d)
    (hl : is_last_datagram d = false) (dst src : List Nat) :
    parse_datagrams_go dst src tail =
      match parse_datagrams_go dst src (tail.drop d.size) with
      | Except.error e => Except.error e
      | Except.ok rest => Except.ok (mkRecord dst src d :: rest) := by
  have h12 := (parse_ok_size hp).1
  unfold parse_datagrams_go
  have hf : goF dst src tail.length (tail.drop d.size) =
      goF dst src ((tail.drop d.size).length + 1) (tail.drop d.size) := by
    apply goF_fuel_irrel
    · simp only [List.length_drop, EtherCATDatagram.size]
      omega
    · omega
  simp [goF, hp, hl, hf]

/-- The loop fails when the current iteration's datagram parse fails. -/
theorem go_step_err {tail : List Nat} {e : DecodeError}
    (hp : parse_one_datagram tail = Except.error e) (dst src : List Nat) :
    parse_datagrams_go dst src tail = Except.error e := by
  unfold parse_datagrams_go
  simp [goF, hp]

/-- The EtherCAT frame decoder panics on a payload of fewer than 2 bytes. -/
theorem frame_err (dst src data : List Nat) (h : data.length < 2) :
    EtherCATFrame.parse dst src data = Except.error DecodeError.panicked := by
  unfold EtherCATFrame.parse
  by_cases h0 : data.length ≤ 0
  · rw [idx_eq_err data 0 (by omega), err_bind]
  · rw [idx_eq_ok data 0 (by omega), ok_bind, idx_eq_err data 1 (by omega), err_bind]

/-- Decomposition of the EtherCAT frame decoder on a payload of at least 2
bytes: the header word comes from bytes 0-1 and the datagram loop runs on
the rest. -/
theorem frame_decomp (dst src data : List Nat) (h : 2 ≤ data.length) :
    EtherCATFrame.parse dst src data =
      match parse_datagrams dst src (data.drop 2) with
      | Except.error e => Except.error e
      | Except.ok res =>
          Except.ok
            ({ header := frameHeaderOfWord (u16le (data.getD 0 0) (data.getD 1 0))
               datagrams := res.2 },
             res.1) := by
  unfold EtherCATFrame.parse
  rw [idx_eq_ok data 0 (by omega), ok_bind, idx_eq_ok data 1 (by omega), ok_bind,
    sliceFrom_ok data 2 h, ok_bind]
  cases hpd : parse_datagrams dst src (data.drop 2) with
  | error e => rfl
  | ok res => rfl

/-- The Ethernet decoder panics on a buffer of fewer than 14 bytes. -/
theorem ethernet_short (data : List Nat) (h : data.length < 14) :
    EtherNetFrame.parse data = Except.error DecodeError.panicked := by
  unfold EtherNetFrame.parse
  by_cases h6 : data.length < 6
  · rw [sliceRange_err data 0 6 (by omega), err_bind]
  · rw [sliceRange_ok data 0 6 (by omega), ok_bind]
    by_cases h12 : data.length < 12
    · rw [sliceRange_err data 6 12 (by omega), err_bind]
    · rw [sliceRange_ok data 6 12 (by omega), ok_bind]
      by_cases hi : data.length ≤ 12
      · rw [idx_eq_err data 12 (by omega), err_bind]
      · rw [idx_eq_ok data 12 (by omega), ok_bind, idx_eq_err data 13 (by omega), err_bind]

/-- Decomposition of the Ethernet decoder on a buffer of at least 14 bytes:
the MACs come from bytes 0-5 and 6-11, the ethertype big-endian from bytes
12-13, and the payload from byte 14 on is always delegated to the EtherCAT
frame decoder, whatever the ethertype value. -/
theorem ethernet_decomp (data : List Nat) (h : 14 ≤ data.length) :
    EtherNetFrame.parse data =
      (EtherCATFrame.parse (data.take 6) ((data.drop 6).take 6) (data.drop 14)).map
        (fun res => ({ frame_type := u16be (data.getD 12 0) (data.getD 13 0)
                       ecat_frame := res.1 }, res.2)) := by
  unfold EtherNetFrame.parse
  rw [sliceRange_ok data 0 6 (by omega), ok_bind, sliceRange_ok data 6 12 (by omega), ok_bind,
    idx_eq_ok data 12 (by omega), ok_bind, idx_eq_ok data 13 (by omega), ok_bind,
    sliceFrom_ok data 14 (by omega), ok_bind]
  simp only [List.drop_zero, Nat.sub_zero, show (12 - 6 : Nat) = 6 from rfl]
  cases hec : EtherCATFrame.parse (data.take 6) ((data.drop 6).take 6) (data.drop 14) with
  | error e => rfl
  | ok res => rfl

set_option maxRecDepth 4000 in
/-- C7: command decode is total over all 256 byte values, codes 0-14 map
one-to-one in numeric order to NOP, APRD, APWR, APRW, FPRD, FPWR, FPRW,
BRD, BWR, BRW, LRD, LWR, LRW, ARMW, FRMW, every byte 15-255 maps to
UNKNOWN, and on codes 0-14 decode and the discriminant encoding are
mutually inverse. -/
theorem C7_command_codec :
    (commandOfByte 0 = EtherCATCommand.NOP ∧
     commandOfByte 1 = EtherCATCommand.APRD ∧
     commandOfByte 2 = EtherCATCommand.APWR ∧
     commandOfByte 3 = EtherCATCommand.APRW ∧
     commandOfByte 4 = EtherCATCommand.FPRD ∧
     commandOfByte 5 = EtherCATCommand.FPWR ∧
     commandOfByte 6 = EtherCATCommand.FPRW ∧
     commandOfByte 7 = EtherCATCommand.BRD ∧
     commandOfByte 8 = EtherCATCommand.BWR ∧
     commandOfByte 9 = EtherCATCommand.BRW ∧
     commandOfByte 10 = EtherCATCommand.LRD ∧
     commandOfByte 11 = EtherCATCommand.LWR ∧
     commandOfByte 12 = EtherCATCommand.LRW ∧
     commandOfByte 13 = EtherCATCommand.ARMW ∧
     commandOfByte 14 = EtherCATCommand.FRMW) ∧
    (∀ b, b < 256 → 15 ≤ b → commandOfByte b = EtherCATCommand.UNKNOWN) ∧
    (∀ b, b < 256 → b ≤ 14 → commandCode (commandOfByte b) = b) ∧
    (∀ c, c ≠ EtherCATCommand.UNKNOWN → commandOfByte (commandCode c) = c) := by
  refine ⟨by decide, by decide, by decide, ?_⟩
  intro c hc
  cases c
  case UNKNOWN => exact absurd rfl hc
  all_goals rfl

/-- Witness for C7 at concrete inputs. -/
theorem C7_witness :
    commandOfByte 255 = EtherCATCommand.UNKNOWN ∧
    commandCode (commandOfByte 7) = 7 ∧
    commandOfByte (commandCode EtherCATCommand.LRW) = EtherCATCommand.LRW :=
  ⟨C7_command_codec.2.1 255 (by decide) (by decide),
   C7_command_codec.2.2.1 7 (by decide) (by decide),
   C7_command_codec.2.2.2 EtherCATCommand.LRW (by decide)⟩

/-- C8: decoding any 16-bit frame-header word assembled little-endian from
two bytes into (length, reserved, frame_type) and re-encoding the triple by
the inverse bit-packing reproduces the word exactly. -/
theorem C8_frame_header_roundtrip :
    ∀ b0 b1, b0 < 256 → b1 < 256 →
      frameHeaderEncode (frameHeaderOfWord (u16le b0 b1)) = u16le b0 b1 := by
  intro b0 b1 h0 h1
  have hv : u16le b0 b1 < 65536 := by
    unfold u16le
    omega
  generalize u16le b0 b1 = v at hv ⊢
  simp only [frameHeaderEncode, frameHeaderOfWord, Nat.shiftRight_eq_div_pow,
    Nat.shiftLeft_eq, Nat.and_one_is_mod]
  rw [show (0x07FF : Nat) = 2 ^ 11 - 1 from rfl, Nat.and_pow_two_sub_one_eq_mod,
    show (0xF : Nat) = 2 ^ 4 - 1 from rfl, Nat.and_pow_two_sub_one_eq_mod]
  norm_num
  omega

/-- Witness for C8 at a concrete header word. -/
theorem C8_witness :
    frameHeaderEncode (frameHeaderOfWord (u16le 0x34 0x12)) = u16le 0x34 0x12 :=
  C8_frame_header_roundtrip 0x34 0x12 (by decide) (by decide)

/-- C10: whenever decoding succeeds, the bit-masked fields lie in their
declared ranges — a datagram's length is at most 0x7FF and its round_trip
and last_indicator bits are at most 1; a frame header's length is at most
0x7FF, its reserved bit at most 1, its frame_type at most 15 — whatever the
raw wire bytes were. -/
theorem C10_masked_field_ranges :
    (∀ buf d, parse_one_datagram buf = Except.ok d →
       d.header.length ≤ 0x7FF ∧ d.header.round_trip ≤ 1 ∧ d.header.last_indicator ≤ 1) ∧
    (∀ dst src buf fr recs, EtherCATFrame.parse dst src buf = Except.ok (fr, recs) →
       fr.header.length ≤ 0x7FF ∧ fr.header.reserved ≤ 1 ∧ fr.header.ecat_frame_type ≤ 15) := by
  constructor
  · intro buf d h
    obtain ⟨-, hd⟩ := parse_ok_size h
    subst hd
    refine ⟨Nat.and_le_right, Nat.and_le_right, Nat.and_le_right⟩
  · intro dst src buf fr recs h
    have h2 : 2 ≤ buf.length := by
      by_contra hlt
      rw [frame_err dst src buf (by omega)] at h
      cases h
    rw [frame_decomp dst src buf h2] at h
    cases hpd : parse_datagrams dst src (buf.drop 2) with
    | error e =>
      rw [hpd] at h
      cases h
    | ok res =>
      rw [hpd] at h
      cases h
      exact ⟨Nat.and_le_right, Nat.and_le_right, Nat.and_le_right⟩

/-- Witness for C10 at concrete successful decodes. -/
theorem C10_witness :
    ((mkParsed dgLast).header.length ≤ 0x7FF ∧ (mkParsed dgLast).header.round_trip ≤ 1 ∧
      (mkParsed dgLast).header.last_indicator ≤ 1) ∧
    ((frameHeaderOfWord (u16le 14 16)).length ≤ 0x7FF ∧
      (frameHeaderOfWord (u16le 14 16)).reserved ≤ 1 ∧
      (frameHeaderOfWord (u16le 14 16)).ecat_frame_type ≤ 15) :=
  ⟨C10_masked_field_ranges.1 dgLast (mkParsed dgLast) (by decide),
   C10_masked_field_ranges.2 macA macB ecatPayload
     { header := frameHeaderOfWord (u16le 14 16), datagrams := [] }
     [mkRecord macA macB (mkParsed dgLast)] (by decide)⟩

/-- C1, counterexample: on the spec's own truncation test (declared length
100, 50 trailing bytes) the decoder fails by the modelled
index-out-of-bounds panic, not with `TruncatedInput` — the source has no
`TruncatedInput` path at all. -/
theorem C1_counterexample :
    parse_one_datagram c1buf = Except.error DecodeError.panicked ∧
    parse_one_datagram c1buf ≠ Except.error DecodeError.truncatedInput := by
  decide

/-- C1 as amended: on every buffer shorter than `10 + L + 2` for its
declared length `L` the decoder fails by an index-out-of-bounds panic
(each read is individually bounds-checked, so there is no out-of-bounds
access, but there is no up-front length check and no `TruncatedInput`
value; the panic aborts processing, so no further records appear). -/
theorem C1_amended_panic :
    ∀ buf, buf.length < 12 + declLen buf →
      parse_one_datagram buf = Except.error DecodeError.panicked := by
  intro buf h
  rw [parse_eq, if_neg (by omega)]

/-- Witness for the amended C1 at a concrete short buffer. -/
theorem C1_witness :
    parse_one_datagram (List.replicate 11 0) = Except.error DecodeError.panicked :=
  C1_amended_panic (List.replicate 11 0) (by decide)

/-- C2, code bug: on the spec's concrete scenario (declared length 0,
exactly 12 bytes) the decoder succeeds but stores the whole tail
`&data_buf[10..]` — here the two working-counter bytes — as `data`,
instead of the `length = 0` bytes the spec states; the source's own
`size()` accounting and working-counter offset show `&data_buf[10..10+length]`
was intended. -/
theorem C2_data_slice_bug :
    parse_one_datagram dgLast = Except.ok (mkParsed dgLast) ∧
    (mkParsed dgLast).header.length = 0 ∧
    (mkParsed dgLast).data = [5, 0] := by
  decide

/-- C9, counterexample: on a datagram with ado 255 and data byte 5 the
emitted record renders ado as hex "ff" (the claim demands decimal "255")
and the data byte as "5" (the claim demands zero-padded "05"), so the
record differs from the claim's format; the second conjunct pins the
actual record text. -/
theorem C9_counterexample :
    mkRecord macA macB d9 ≠ specRecord macA macB d9 ∧
    mkRecord macA macB d9 = "0 1 2 3 4 5,a b c d e f,APRD,0,2,ff,1,0,0,0,1,[5]" := by
  decide

/-- C9 as amended: every emitted record is the comma-join, in order, of
dst MAC, src MAC, command name, index (decimal), adp (decimal), ado
(lowercase hex, unpadded), length (decimal), round_trip (decimal),
last_ind (decimal), irq (lowercase hex), wkc (decimal), and the data bytes
rendered as a bracketed ", "-separated list of lowercase hex values
without zero-padding. -/
theorem C9_amended_format :
    ∀ dst src d,
      mkRecord dst src d =
        macStr dst ++ "," ++ macStr src ++ "," ++ cmdStr d.header.cmd ++ "," ++
          Nat.repr d.header.index ++ "," ++ Nat.repr d.header.slave_addr ++ "," ++
          hexStr d.header.offset_addr ++ "," ++ Nat.repr d.header.length ++ "," ++
          Nat.repr d.header.round_trip ++ "," ++ Nat.repr d.header.last_indicator ++ "," ++
          hexStr d.header.irq ++ "," ++ Nat.repr d.wkc ++ "," ++
          dataDebugStr d.data := by
  intro dst src d
  simp [mkRecord, datagramStr, headerStr, String.append_assoc]

/-- C6: the datagram iterator starts at cursor 0, emits one record per
decoded datagram, advances by exactly `10 + L + 2` bytes, and stops exactly
when the stored bit-15 flag is 0; three back-to-back datagrams with flag
bits 1, 1, 0 yield exactly three records in wire order, and a single
datagram with flag 0 yields exactly one record. -/
theorem C6_iterator :
    (∀ dst src tail d, parse_one_datagram tail = Except.ok d →
      (d.header.last_indicator = 0 →
        parse_datagrams_go dst src tail = Except.ok [mkRecord dst src d]) ∧
      (d.header.last_indicator ≠ 0 →
        parse_datagrams_go dst src tail =
          match parse_datagrams_go dst src (tail.drop (10 + d.header.length + 2)) with
          | Except.error e => Except.error e
          | Except.ok rest => Except.ok (mkRecord dst src d :: rest))) ∧
    (∀ dst src buf d1 d2 d3,
      parse_one_datagram buf = Except.ok d1 → d1.header.last_indicator ≠ 0 →
      parse_one_datagram (buf.drop (10 + d1.header.length + 2)) = Except.ok d2 →
      d2.header.last_indicator ≠ 0 →
      parse_one_datagram ((buf.drop (10 + d1.header.length + 2)).drop
          (10 + d2.header.length + 2)) = Except.ok d3 →
      d3.header.last_indicator = 0 →
      parse_datagrams dst src buf =
        Except.ok ([mkRecord dst src d1, mkRecord dst src d2, mkRecord dst src d3], [])) ∧
    (∀ dst src buf d, parse_one_datagram buf = Except.ok d → d.header.last_indicator = 0 →
      parse_datagrams dst src buf = Except.ok ([mkRecord dst src d], [])) := by
  have hT : ∀ d : EtherCATDatagram, d.header.last_indicator = 0 →
      is_last_datagram d = true := by
    intro d h
    simp [is_last_datagram, h]
  have hF : ∀ d : EtherCATDatagram, d.header.last_indicator ≠ 0 →
      is_last_datagram d = false := by
    intro d h
    simp only [is_last_datagram, beq_eq_false_iff_ne, ne_eq]
    exact h
  refine ⟨?_, ?_, ?_⟩
  · intro dst src tail d hp
    constructor
    · intro h0
      exact go_step_last hp (hT d h0) dst src
    · intro hne
      have hg := go_step_more hp (hF d hne) dst src
      simpa only [EtherCATDatagram.size] using hg
  · intro dst src buf d1 d2 d3 h1 e1 h2 e2 h3 e3
    have g3 := go_step_last h3 (hT d3 e3) dst src
    have g2 := go_step_more h2 (hF d2 e2) dst src
    have g1 := go_step_more h1 (hF d1 e1) dst src
    simp only [EtherCATDatagram.size] at g1 g2
    rw [g3] at g2
    have g2' : parse_datagrams_go dst src (buf.drop (10 + d1.header.length + 2)) =
        Except.ok [mkRecord dst src d2, mkRecord dst src d3] := g2.trans rfl
    rw [g2'] at g1
    have g1' : parse_datagrams_go dst src buf =
        Except.ok [mkRecord dst src d1, mkRecord dst src d2, mkRecord dst src d3] :=
      g1.trans rfl
    unfold parse_datagrams
    rw [g1']
  · intro dst src buf d hp h0
    have g := go_step_last hp (hT d h0) dst src
    unfold parse_datagrams
    rw [g]

/-- Witness for C6: the three-datagram buffer with flag bits 1, 1, 0 gives
three records in wire order, and the single last datagram gives one. -/
theorem C6_witness :
    parse_datagrams macA macB c6buf =
      Except.ok ([mkRecord macA macB (mkParsed c6buf),
                  mkRecord macA macB (mkParsed (c6buf.drop 12)),
                  mkRecord macA macB (mkParsed ((c6buf.drop 12).drop 12))], []) ∧
    parse_datagrams macA macB dgLast =
      Except.ok ([mkRecord macA macB (mkParsed dgLast)], []) :=
  ⟨C6_iterator.2.1 macA macB c6buf (mkParsed c6buf) (mkParsed (c6buf.drop 12))
     (mkParsed ((c6buf.drop 12).drop 12)) (by decide) (by decide) (by decide) (by decide)
     (by decide) (by decide),
   C6_iterator.2.2 macA macB dgLast (mkParsed dgLast) (by decide) (by decide)⟩

/-- C3, counterexample: a frame whose payload decodes one datagram (one
record is emitted) nevertheless carries an empty `datagrams` field — the
`datagrams.push` line is commented out in the source. -/
theorem C3_counterexample :
    (EtherCATFrame.parse macA macB ecatPayload).map (fun p => (p.1.datagrams, p.2.length)) =
      Except.ok (([] : List EtherCATDatagram), 1) := by
  decide

/-- C3 as amended: on every successful frame decode the `datagrams` field
is empty, and the decoded datagrams instead appear as the emitted records,
one per datagram in wire order. -/
theorem C3_amended_empty :
    ∀ dst src buf fr recs, EtherCATFrame.parse dst src buf = Except.ok (fr, recs) →
      fr.datagrams = [] ∧ parse_datagrams_go dst src (buf.drop 2) = Except.ok recs := by
  intro dst src buf fr recs h
  have h2 : 2 ≤ buf.length := by
    by_contra hlt
    rw [frame_err dst src buf (by omega)] at h
    cases h
  cases hgo : parse_datagrams_go dst src (buf.drop 2) with
  | error e =>
    have hpd : parse_datagrams dst src (buf.drop 2) = Except.error e := by
      unfold parse_datagrams
      rw [hgo]
    rw [frame_decomp dst src buf h2, hpd] at h
    cases h
  | ok recs0 =>
    have hpd : parse_datagrams dst src (buf.drop 2) = Except.ok (recs0, []) := by
      unfold parse_datagrams
      rw [hgo]
    rw [frame_decomp dst src buf h2, hpd] at h
    cases h
    exact ⟨rfl, rfl⟩

/-- Witness for the amended C3 at a concrete frame. -/
theorem C3_witness :
    ({ header := frameHeaderOfWord (u16le 14 16),
       datagrams := ([] : List EtherCATDatagram) } : EtherCATFrame).datagrams = [] ∧
    parse_datagrams_go macA macB (ecatPayload.drop 2) =
      Except.ok [mkRecord macA macB (mkParsed dgLast)] :=
  C3_amended_empty macA macB ecatPayload _ _ (by decide)

/-- C4, counterexample: an Ethernet frame with ethertype 0x0800 (not the
EtherCAT ethertype 0x88A4) is still delegated to the EtherCAT decoder — a
record is emitted from its payload — so delegation is not conditional on
the ethertype. -/
theorem C4_counterexample :
    (EtherNetFrame.parse ethBad).map (fun p => (p.1.frame_type, p.2.length)) =
      Except.ok ((0x0800 : Nat), 1) ∧ (0x0800 : Nat) ≠ 0x88A4 := by
  decide

/-- C4 as amended: for every buffer of at least 14 bytes the payload from
byte 14 on is unconditionally handed to the EtherCAT frame decoder,
whatever ethertype bytes 12-13 carry; the source performs no ethertype
dispatch. -/
theorem C4_amended_unconditional :
    ∀ data, 14 ≤ data.length →
      EtherNetFrame.parse data =
        (EtherCATFrame.parse (data.take 6) ((data.drop 6).take 6) (data.drop 14)).map
          (fun res => ({ frame_type := u16be (data.getD 12 0) (data.getD 13 0)
                         ecat_frame := res.1 }, res.2)) :=
  ethernet_decomp

/-- Witness for the amended C4 at the non-EtherCAT-ethertype frame. -/
theorem C4_witness :
    EtherNetFrame.parse ethBad =
      (EtherCATFrame.parse (ethBad.take 6) ((ethBad.drop 6).take 6) (ethBad.drop 14)).map
        (fun res => ({ frame_type := u16be (ethBad.getD 12 0) (ethBad.getD 13 0)
                       ecat_frame := res.1 }, res.2)) :=
  C4_amended_unconditional ethBad (by decide)

/-- C5, counterexample: a 13-byte buffer makes the Ethernet decoder fail by
the modelled index-out-of-bounds panic, not with `TruncatedInput` — the
source has no `TruncatedInput` path. -/
theorem C5_counterexample :
    EtherNetFrame.parse (List.replicate 13 0) = Except.error DecodeError.panicked ∧
    EtherNetFrame.parse (List.replicate 13 0) ≠ Except.error DecodeError.truncatedInput := by
  decide

/-- C5 as amended: under 14 bytes the Ethernet decoder fails by an
index-out-of-bounds panic (no `TruncatedInput` value exists); on every
successful decode the returned ethertype is the big-endian word from bytes
12-13, and the EtherCAT stage was run on bytes 14.. with the MACs from
bytes 0-5 and 6-11 (the MACs and payload are passed to that stage rather
than returned). -/
theorem C5_amended_behavior :
    (∀ data, data.length < 14 → EtherNetFrame.parse data = Except.error DecodeError.panicked) ∧
    (∀ data fr recs, EtherNetFrame.parse data = Except.ok (fr, recs) →
      fr.frame_type = u16be (data.getD 12 0) (data.getD 13 0) ∧
      EtherCATFrame.parse (data.take 6) ((data.drop 6).take 6) (data.drop 14) =
        Except.ok (fr.ecat_frame, recs)) := by
  constructor
  · exact ethernet_short
  · intro data fr recs h
    have h14 : 14 ≤ data.length := by
      by_contra hlt
      rw [ethernet_short data (by omega)] at h
      cases h
    rw [ethernet_decomp data h14] at h
    cases hec : EtherCATFrame.parse (data.take 6) ((data.drop 6).take 6) (data.drop 14) with
    | error e =>
      rw [hec] at h
      cases h
    | ok res =>
      rw [hec] at h
      cases h
      exact ⟨rfl, rfl⟩

/-- Witness for the amended C5: a short buffer panics, and a well-formed
EtherCAT-ethertype frame decodes with the stated field routing. -/
theorem C5_witness :
    EtherNetFrame.parse (List.replicate 5 0) = Except.error DecodeError.panicked ∧
    (frG.frame_type = u16be (ethGood.getD 12 0) (ethGood.getD 13 0) ∧
      EtherCATFrame.parse (ethGood.take 6) ((ethGood.drop 6).take 6) (ethGood.drop 14) =
        Except.ok (frG.ecat_frame, recsG)) :=
  ⟨C5_amended_behavior.1 (List.replicate 5 0) (by decide),
   C5_amended_behavior.2 ethGood frG recsG (by decide)⟩

end Ecat
